import Mathlib

/-!
Verification of the cryptographic / serialization core of the
`appium-ios-remotexpc` repository: the SRP-6a client
(`src/lib/remote-xpc/srp/srp-client.ts`, bundled in
`src/src/services/ios/syslog-service/index.ts`), the TLV8 encoder
(`encodeTLV8`) and the OPACK2 encoder (`Opack2`).

Buffers are modelled as `List Nat` of byte values, JavaScript `bigint`s as
`Nat` (they are non-negative everywhere in this code) or `Int` where a
difference may be negative.  Helper functions that live outside the provided
sources (`buffer-utils.ts`, `crypto-utils.ts`) are modelled from the spec and
say so in their doc comments.
-/

namespace RemoteXpc

/-- RFC 5054 3072-bit safe prime `SRP_PRIME_3072` (constants.ts), written as
the decimal-free hex literal obtained by concatenating the twelve source
lines. -/
def N : Nat :=
  0xFFFFFFFFFFFFFFFFC90FDAA22168C234C4C6628B80DC1CD129024E088A67CC74020BBEA63B139B22514A08798E3404DDEF9519B3CD3A431B302B0A6DF25F14374FE1356D6D51C245E485B576625E7EC6F44C42E9A637ED6B0BFF5CB6F406B7EDEE386BFB5A899FA5AE9F24117C4B1FE649286651ECE45B3DC2007CB8A163BF0598DA48361C55D39A69163FA8FD24CF5F83655D23DCA3AD961C62F356208552BB9ED529077096966D670C354E4ABC9804F1746C08CA18217C32905E462E36CE3BE39E772C180E86039B2783A2EC07A28FB5C55DF06F4C52C9DE2BCBF6955817183995497CEA956AE515D2261898FA051015728E5A8AAAC42DAD33170D04507A33A85521ABDF1CBA64ECFB850458DBEF0A8AEA71575D060C7DB3970F85A6E1E4C7ABF5AE8CDB0933D71E8C94E04A25619DCEE3D2261AD2EE6BF12FFA06D98A0864D87602733EC86A64521F2B18177B200CBBE117577A615D6C770988C0BAD946E208E24FA074E5AB3143DB5BFCE0FD108E4B82D120A93AD2CAFFFFFFFFFFFFFFFF

/-- Generator `SRP_GENERATOR = 5` (constants.ts). -/
def g : Nat := 5

/-- `SRP_KEY_LENGTH_BYTES = 384` (constants.ts). -/
def SRP_KEY_LENGTH_BYTES : Nat := 384

/-- Modelled from the spec: `bigIntToBuffer(n, width)` from the missing
`buffer-utils.ts` — the `width`-byte big-endian representation of `n`,
left-zero-padded (faithful for every `n < 256 ^ width`, the only way it is
applied here). -/
def bigIntToBuffer (n : Nat) : Nat → List Nat
  | 0 => []
  | w + 1 => n / 256 ^ w % 256 :: bigIntToBuffer n w

/-- Modelled from the spec: `bufferToBigInt(buf)` from the missing
`buffer-utils.ts` — the non-negative big-endian interpretation of a byte
buffer. -/
def bufferToBigInt (buf : List Nat) : Nat :=
  buf.foldl (fun acc b => acc * 256 + b) 0

/-- Modelled from the spec: `modPow(base, exp, mod)` from the missing
`buffer-utils.ts` computes `base ^ exp mod mod`. -/
def modPow (b e m : Nat) : Nat := b ^ e % m

theorem bigIntToBuffer_length (n w : Nat) : (bigIntToBuffer n w).length = w := by
  induction w with
  | zero => rfl
  | succ w ih => simp [bigIntToBuffer, ih]

theorem bufferToBigInt_cons (b : Nat) (rest : List Nat) :
    bufferToBigInt (b :: rest) = b * 256 ^ rest.length + bufferToBigInt rest := by
  have key : ∀ (l : List Nat) (acc : Nat),
      l.foldl (fun acc b => acc * 256 + b) acc
        = acc * 256 ^ l.length + l.foldl (fun acc b => acc * 256 + b) 0 := by
    intro l
    induction l with
    | nil => intro acc; simp
    | cons x xs ih =>
      intro acc
      simp only [List.foldl_cons, List.length_cons, Nat.zero_mul, Nat.zero_add]
      rw [ih (acc * 256 + x), ih x]
      ring
  simp only [bufferToBigInt, List.foldl_cons, Nat.zero_mul, Nat.zero_add]
  rw [key rest b]

/-- Round-trip: reading back the `w`-byte big-endian encoding of `n < 256^w`
gives `n` (spec invariant 1). -/
theorem bufferToBigInt_bigIntToBuffer (n w : Nat) (h : n < 256 ^ w) :
    bufferToBigInt (bigIntToBuffer n w) = n := by
  have key : ∀ w, bufferToBigInt (bigIntToBuffer n w) = n % 256 ^ w := by
    intro w
    induction w with
    | zero => simp [bigIntToBuffer, bufferToBigInt, Nat.mod_one]
    | succ w ih =>
      rw [bigIntToBuffer, bufferToBigInt_cons, ih, bigIntToBuffer_length]
      have h256 : (256 : Nat) ^ (w + 1) = 256 ^ w * 256 := by ring
      rw [h256, Nat.mod_mul]
      ring
  rw [key w, Nat.mod_eq_of_lt h]

/-! ## TLV8 encoder (`src/lib/remote-xpc/tlv8/index.ts`, `encodeTLV8`) -/

/-- `TLV8_MAX_FRAGMENT_SIZE = 255` (constants.ts). -/
def TLV8_MAX_FRAGMENT_SIZE : Nat := 255

/-- The fragments produced by `encodeTLV8`'s inner `while (offset < data.length)`
loop for one item `{type, data}`: each iteration takes
`fragmentLength = min TLV8_MAX_FRAGMENT_SIZE (data.length - offset)` bytes.
We recurse on the not-yet-consumed suffix of `data` instead of carrying
`offset`. -/
def tlv8Fragments (t : Nat) : List Nat → List (Nat × List Nat)
  | [] => []
  | x :: rest =>
    let fragmentLength := min TLV8_MAX_FRAGMENT_SIZE (x :: rest).length
    (t, (x :: rest).take fragmentLength) ::
      tlv8Fragments t ((x :: rest).drop fragmentLength)
termination_by d => d.length
decreasing_by
  simp only [List.length_drop, List.length_cons, TLV8_MAX_FRAGMENT_SIZE]
  omega

/-- The bytes `Buffer.from([type, fragmentLength])` followed by the payload
slice; `Buffer.from` truncates each entry to a byte, hence `% 256`. -/
def tlv8RecordBytes (r : Nat × List Nat) : List Nat :=
  r.1 % 256 :: r.2.length % 256 :: r.2

/-- `encodeTLV8(items)` — the outer `for` loop over items, concatenating the
per-fragment chunks in order (`Buffer.concat(chunks)`). -/
def encodeTLV8 (items : List (Nat × List Nat)) : List Nat :=
  (items.map (fun i => ((tlv8Fragments i.1 i.2).map tlv8RecordBytes).flatten)).flatten

/-- A TLV8 record-level reader for the output stream: repeatedly read a type
byte, a length byte, then that many payload bytes.  Used to speak about "the
records of the output". -/
def parseTLV8 : List Nat → Option (List (Nat × List Nat))
  | [] => some []
  | t :: len :: rest =>
    if len ≤ rest.length then
      (parseTLV8 (rest.drop len)).map (fun rs => (t, rest.take len) :: rs)
    else none
  | _ => none
termination_by l => l.length
decreasing_by
  simp only [List.length_drop, List.length_cons]
  omega

theorem tlv8Fragments_nil (t : Nat) : tlv8Fragments t [] = [] := by
  simp [tlv8Fragments]

theorem tlv8Fragments_of_le (t : Nat) (d : List Nat) (h0 : d ≠ [])
    (hle : d.length ≤ 255) : tlv8Fragments t d = [(t, d)] := by
  match d with
  | x :: rest =>
    have hm : TLV8_MAX_FRAGMENT_SIZE ⊓ (rest.length + 1) = rest.length + 1 := by
      simp only [TLV8_MAX_FRAGMENT_SIZE]
      simp only [List.length_cons] at hle
      omega
    simp only [tlv8Fragments, List.length_cons, hm, List.take_succ_cons,
      List.drop_succ_cons, List.take_length, List.drop_length, tlv8Fragments_nil]

theorem tlv8Fragments_of_gt (t : Nat) (d : List Nat) (hgt : 255 < d.length) :
    tlv8Fragments t d = (t, d.take 255) :: tlv8Fragments t (d.drop 255) := by
  match d with
  | x :: rest =>
    have hm : TLV8_MAX_FRAGMENT_SIZE ⊓ (rest.length + 1) = 255 := by
      simp only [TLV8_MAX_FRAGMENT_SIZE]
      simp only [List.length_cons] at hgt
      omega
    conv_lhs => simp only [tlv8Fragments]
    simp only [List.length_cons, hm]

/-- Every fragment of an item carries the item's type and at most 255 payload
bytes. -/
theorem tlv8Fragments_mem (t : Nat) (d : List Nat) :
    ∀ r ∈ tlv8Fragments t d, r.1 = t ∧ r.2.length ≤ 255 := by
  suffices H : ∀ (n : Nat) (d : List Nat), d.length ≤ n →
      ∀ r ∈ tlv8Fragments t d, r.1 = t ∧ r.2.length ≤ 255 by
    exact H d.length d le_rfl
  intro n
  induction n with
  | zero =>
    intro d hd
    have hnil : d = [] := by cases d <;> simp_all
    simp [hnil, tlv8Fragments_nil]
  | succ n ih =>
    intro d hd r hr
    rcases Nat.lt_or_ge 255 d.length with hgt | hle
    · rw [tlv8Fragments_of_gt t d hgt] at hr
      rcases List.mem_cons.mp hr with hr | hr
      · subst hr
        refine ⟨rfl, ?_⟩
        simp only [List.length_take]
        omega
      · exact ih (d.drop 255) (by simp only [List.length_drop]; omega) r hr
    · rcases Decidable.em (d = []) with hnil | hne
      · simp [hnil, tlv8Fragments_nil] at hr
      · rw [tlv8Fragments_of_le t d hne hle] at hr
        simp only [List.mem_singleton] at hr
        subst hr
        exact ⟨rfl, hle⟩

/-- Concatenating the payloads of an item's fragments reproduces the data. -/
theorem tlv8Fragments_payloads (t : Nat) (d : List Nat) :
    ((tlv8Fragments t d).map (fun r => r.2)).flatten = d := by
  suffices H : ∀ (n : Nat) (d : List Nat), d.length ≤ n →
      ((tlv8Fragments t d).map (fun r => r.2)).flatten = d by
    exact H d.length d le_rfl
  intro n
  induction n with
  | zero =>
    intro d hd
    have hnil : d = [] := by cases d <;> simp_all
    simp [hnil, tlv8Fragments_nil]
  | succ n ih =>
    intro d hd
    rcases Nat.lt_or_ge 255 d.length with hgt | hle
    · rw [tlv8Fragments_of_gt t d hgt]
      simp only [List.map_cons, List.flatten_cons]
      rw [ih (d.drop 255) (by simp only [List.length_drop]; omega)]
      exact List.take_append_drop 255 d
    · rcases Decidable.em (d = []) with hnil | hne
      · simp [hnil, tlv8Fragments_nil]
      · rw [tlv8Fragments_of_le t d hne hle]
        simp

/-- The payload lengths of an item's fragments: `⌊L/255⌋` full fragments of
255 bytes followed by one of `L mod 255` bytes when `255 ∤ L`. -/
theorem tlv8Fragments_lengths (t : Nat) (d : List Nat) :
    (tlv8Fragments t d).map (fun r => r.2.length)
      = List.replicate (d.length / 255) 255
        ++ (if d.length % 255 = 0 then [] else [d.length % 255]) := by
  suffices H : ∀ (n : Nat) (d : List Nat), d.length ≤ n →
      (tlv8Fragments t d).map (fun r => r.2.length)
        = List.replicate (d.length / 255) 255
          ++ (if d.length % 255 = 0 then [] else [d.length % 255]) by
    exact H d.length d le_rfl
  intro n
  induction n with
  | zero =>
    intro d hd
    have hnil : d = [] := by cases d <;> simp_all
    simp [hnil, tlv8Fragments_nil]
  | succ n ih =>
    intro d hd
    rcases Nat.lt_or_ge 255 d.length with hgt | hle
    · rw [tlv8Fragments_of_gt t d hgt]
      simp only [List.map_cons, List.length_take]
      rw [ih (d.drop 255) (by simp only [List.length_drop]; omega)]
      have hdiv : d.length / 255 = (d.length - 255) / 255 + 1 :=
        Nat.div_eq_sub_div (by omega) (by omega)
      have hmod : d.length % 255 = (d.length - 255) % 255 :=
        Nat.mod_eq_sub_mod (by omega)
      have hmin : min 255 d.length = 255 := by omega
      rw [hmin, List.length_drop, hdiv, ← hmod, List.replicate_succ]
      simp
    · rcases Decidable.em (d = []) with hnil | hne
      · simp [hnil, tlv8Fragments_nil]
      · rw [tlv8Fragments_of_le t d hne hle]
        have hpos : 0 < d.length := by
          cases d with
          | nil => exact absurd rfl hne
          | cons x rest => simp
        rcases Nat.lt_or_ge d.length 255 with hlt | hge
        · have h1 : d.length / 255 = 0 := Nat.div_eq_of_lt hlt
          have h2 : d.length % 255 = d.length := Nat.mod_eq_of_lt hlt
          have hne0 : d.length ≠ 0 := by omega
          simp [h1, h2, hne0]
        · have h255 : d.length = 255 := by omega
          simp [h255]

theorem encodeTLV8_nil : encodeTLV8 [] = [] := by
  simp [encodeTLV8]

theorem encodeTLV8_cons (i : Nat × List Nat) (rest : List (Nat × List Nat)) :
    encodeTLV8 (i :: rest)
      = ((tlv8Fragments i.1 i.2).map tlv8RecordBytes).flatten ++ encodeTLV8 rest := by
  simp [encodeTLV8]

/-- Reading back the byte stream of one item's fragments (followed by any
suffix) yields exactly those fragments as records, then whatever the suffix
parses to. -/
theorem parseTLV8_fragments_append (t : Nat) (ht : t ≤ 255) (d tail : List Nat) :
    parseTLV8 (((tlv8Fragments t d).map tlv8RecordBytes).flatten ++ tail)
      = (parseTLV8 tail).map (fun rs => tlv8Fragments t d ++ rs) := by
  suffices H : ∀ (n : Nat) (d : List Nat), d.length ≤ n →
      parseTLV8 (((tlv8Fragments t d).map tlv8RecordBytes).flatten ++ tail)
        = (parseTLV8 tail).map (fun rs => tlv8Fragments t d ++ rs) by
    exact H d.length d le_rfl
  intro n
  induction n with
  | zero =>
    intro d hd
    have hnil : d = [] := by cases d <;> simp_all
    subst hnil
    simp only [tlv8Fragments_nil, List.map_nil, List.flatten_nil, List.nil_append]
    cases parseTLV8 tail <;> simp
  | succ n ih =>
    intro d hd
    rcases Decidable.em (d = []) with hnil | hne
    · subst hnil
      simp only [tlv8Fragments_nil, List.map_nil, List.flatten_nil, List.nil_append]
      cases parseTLV8 tail <;> simp
    · -- one fragment of payload p, then the remaining fragments
      rcases Nat.lt_or_ge 255 d.length with hgt | hle
      · rw [tlv8Fragments_of_gt t d hgt]
        have hlen : (d.take 255).length = 255 := by
          simp only [List.length_take]
          omega
        simp only [List.map_cons, List.flatten_cons, tlv8RecordBytes, hlen,
          List.cons_append, List.append_assoc]
        rw [parseTLV8]
        have hmod : t % 256 = t := Nat.mod_eq_of_lt (by omega)
        have htk := List.take_left (d.take 255)
          (((tlv8Fragments t (d.drop 255)).map tlv8RecordBytes).flatten ++ tail)
        rw [hlen] at htk
        have hdr := List.drop_left (d.take 255)
          (((tlv8Fragments t (d.drop 255)).map tlv8RecordBytes).flatten ++ tail)
        rw [hlen] at hdr
        have hcond : (255 : Nat) % 256 ≤ (d.take 255
            ++ (((tlv8Fragments t (d.drop 255)).map tlv8RecordBytes).flatten
                ++ tail)).length := by
          simp only [List.length_append, hlen]
          omega
        simp only [hcond, if_pos, Nat.reduceMod, htk, hdr]
        rw [ih (d.drop 255) (by simp only [List.length_drop]; omega)]
        rw [Option.map_map]
        cases parseTLV8 tail <;> simp [hmod]
      · rw [tlv8Fragments_of_le t d hne hle]
        have hmod : t % 256 = t := Nat.mod_eq_of_lt (by omega)
        have hmodl : d.length % 256 = d.length := Nat.mod_eq_of_lt (by omega)
        simp only [List.map_cons, List.map_nil, List.flatten_cons, List.flatten_nil,
          tlv8RecordBytes, List.append_nil, List.cons_append]
        rw [parseTLV8, hmodl]
        have hcond : d.length ≤ (d ++ tail).length := by
          simp only [List.length_append]
          omega
        simp only [hcond, if_pos, List.take_left, List.drop_left]
        cases parseTLV8 tail <;> simp [hmod]

/-- Record-level view of the whole encoder: the output parses back to the
items' fragments, one group per item, in input order. -/
theorem parseTLV8_encodeTLV8 (items : List (Nat × List Nat))
    (h : ∀ i ∈ items, i.1 ≤ 255) :
    parseTLV8 (encodeTLV8 items)
      = some (items.flatMap fun i => tlv8Fragments i.1 i.2) := by
  induction items with
  | nil => simp [encodeTLV8_nil, parseTLV8]
  | cons i rest ih =>
    rw [encodeTLV8_cons, parseTLV8_fragments_append i.1 (h i (by simp)) i.2]
    rw [ih (fun j hj => h j (List.mem_cons_of_mem i hj))]
    simp

/-- Claim C3 counterexample: an item with empty data does not emit the
two-byte record `[type, 0]` — `encodeTLV8` emits nothing at all for it, so
the whole output for `[(1, [])]` is empty rather than `[1, 0]`. -/
theorem tlv8_c3_counterexample :
    encodeTLV8 [(1, ([] : List Nat))] = [] ∧ ([] : List Nat) ≠ [1, 0] := by
  constructor
  · rw [encodeTLV8_cons]
    simp [tlv8Fragments_nil, encodeTLV8_nil]
  · decide

/-- Claim C3 (amended): a TLV8 item with empty data contributes no bytes (and
hence no record) to the output, and the records of all items appear in the
output in input order with no reordering. -/
theorem tlv8_c3_empty_item_and_order :
    (∀ (t : Nat) (rest : List (Nat × List Nat)),
        encodeTLV8 ((t, ([] : List Nat)) :: rest) = encodeTLV8 rest)
    ∧ ∀ (items : List (Nat × List Nat)), (∀ i ∈ items, i.1 ≤ 255) →
        parseTLV8 (encodeTLV8 items)
          = some (items.flatMap fun i => tlv8Fragments i.1 i.2) := by
  constructor
  · intro t rest
    rw [encodeTLV8_cons]
    simp [tlv8Fragments_nil]
  · exact parseTLV8_encodeTLV8

/-- Claim C3 witness: a concrete two-item input, the second item with empty
data, parses back to the first item's single record only, in order. -/
theorem tlv8_c3_witness :
    parseTLV8 (encodeTLV8 [(1, [2]), (3, [])])
      = some ([(1, [2]), (3, [])].flatMap fun i => tlv8Fragments i.1 i.2) :=
  tlv8_c3_empty_item_and_order.2 _ (by decide)

/-- Claim C8: for a single-item input `[(t, d)]`, the output parses into
records all of whose type bytes are `t`, and concatenating the payloads of the
records whose type equals `t` reproduces `d`. -/
theorem tlv8_c8_payload_roundtrip (t : Nat) (d : List Nat) (ht : t ≤ 255) :
    parseTLV8 (encodeTLV8 [(t, d)]) = some (tlv8Fragments t d)
    ∧ (((tlv8Fragments t d).filter (fun r => r.1 == t)).map
        (fun r => r.2)).flatten = d := by
  constructor
  · rw [parseTLV8_encodeTLV8 _ (by intro i hi; rw [List.mem_singleton] at hi; subst hi; exact ht)]
    simp
  · have hf : (tlv8Fragments t d).filter (fun r => r.1 == t) = tlv8Fragments t d := by
      rw [List.filter_eq_self]
      intro r hr
      simpa using (tlv8Fragments_mem t d r hr).1
    rw [hf, tlv8Fragments_payloads]

/-- Claim C8 witness: concrete instance at `t = 2`, `d = [9, 9]`. -/
theorem tlv8_c8_witness :
    parseTLV8 (encodeTLV8 [(2, [9, 9])]) = some (tlv8Fragments 2 [9, 9])
    ∧ (((tlv8Fragments 2 [9, 9]).filter (fun r => r.1 == 2)).map
        (fun r => r.2)).flatten = [9, 9] :=
  tlv8_c8_payload_roundtrip 2 [9, 9] (by omega)

/-- Claim C4 counterexample: for the item `(5, 510 bytes of 0xAB)`,
`|d| = 510` is an exact multiple of 255; the output consists of two records
both of payload length 255, so the final record's length byte is 255 and not
`|d| mod 255 = 0` as the claim requires. -/
theorem tlv8_c4_counterexample :
    parseTLV8 (encodeTLV8 [(5, List.replicate 510 171)])
        = some [(5, List.replicate 255 171), (5, List.replicate 255 171)]
    ∧ (510 : Nat) % 255 = 0
    ∧ [(5, List.replicate 255 (171 : Nat)), (5, List.replicate 255 171)].getLast?
        = some (5, List.replicate 255 171)
    ∧ (List.replicate 255 (171 : Nat)).length = 255
    ∧ (255 : Nat) ≠ 510 % 255 := by
  have hfrag : tlv8Fragments 5 (List.replicate 510 171)
      = [(5, List.replicate 255 171), (5, List.replicate 255 171)] := by
    rw [tlv8Fragments_of_gt _ _ (by rw [List.length_replicate]; omega),
      List.take_replicate, List.drop_replicate]
    norm_num
    rw [tlv8Fragments_of_le _ _
      (List.ne_nil_of_length_pos (by rw [List.length_replicate]; omega))
      (by rw [List.length_replicate] <;> omega)]
  refine ⟨?_, by norm_num, ?_, by rw [List.length_replicate], by norm_num⟩
  · rw [parseTLV8_encodeTLV8 _
      (by intro i hi; rw [List.mem_singleton] at hi; subst hi; norm_num)]
    simp only [List.flatMap_cons, List.flatMap_nil, List.append_nil]
    rw [hfrag]
  · rfl

/-- Claim C4 (amended): for an item `(t, d)` with `|d| > 255`, the output
records parsed back all bear type `t`; the first `⌊|d|/255⌋` records carry
exactly 255 payload bytes; when `255 ∤ |d|` the final record carries
`|d| mod 255` bytes, and when `255 ∣ |d|` there is no final short record — the
records are exactly `|d|/255` full fragments of 255 bytes.  Concretely,
`(0x05, 260 bytes of 0xAB)` encodes to a 255-byte record followed by a 5-byte
record. -/
theorem tlv8_c4_fragmentation (t : Nat) (d : List Nat) (ht : t ≤ 255)
    (hgt : 255 < d.length) :
    parseTLV8 (encodeTLV8 [(t, d)]) = some (tlv8Fragments t d)
    ∧ (∀ r ∈ tlv8Fragments t d, r.1 = t)
    ∧ ((tlv8Fragments t d).map (fun r => r.2.length)).take (d.length / 255)
        = List.replicate (d.length / 255) 255
    ∧ (d.length % 255 ≠ 0 →
        (tlv8Fragments t d).map (fun r => r.2.length)
          = List.replicate (d.length / 255) 255 ++ [d.length % 255])
    ∧ (d.length % 255 = 0 →
        (tlv8Fragments t d).map (fun r => r.2.length)
          = List.replicate (d.length / 255) 255)
    ∧ parseTLV8 (encodeTLV8 [(5, List.replicate 260 171)])
        = some [(5, List.replicate 255 171), (5, List.replicate 5 171)] := by
  refine ⟨?_, ?_, ?_, ?_, ?_, ?_⟩
  · rw [parseTLV8_encodeTLV8 _
      (by intro i hi; rw [List.mem_singleton] at hi; subst hi; exact ht)]
    simp
  · intro r hr
    exact (tlv8Fragments_mem t d r hr).1
  · rw [tlv8Fragments_lengths]
    rcases Decidable.em (d.length % 255 = 0) with h0 | h0
    · simp [h0, List.take_replicate]
    · rw [if_neg h0]
      have htl := List.take_left (List.replicate (d.length / 255) 255)
        [d.length % 255]
      rw [List.length_replicate] at htl
      exact htl
  · intro h0
    rw [tlv8Fragments_lengths, if_neg h0]
  · intro h0
    rw [tlv8Fragments_lengths, if_pos h0]
    simp
  · have hfrag : tlv8Fragments 5 (List.replicate 260 171)
        = [(5, List.replicate 255 171), (5, List.replicate 5 171)] := by
      rw [tlv8Fragments_of_gt _ _ (by rw [List.length_replicate]; omega),
        List.take_replicate, List.drop_replicate]
      norm_num
      rw [tlv8Fragments_of_le _ _
        (List.ne_nil_of_length_pos (by rw [List.length_replicate]; omega))
        (by rw [List.length_replicate] <;> omega)]
    rw [parseTLV8_encodeTLV8 _
      (by intro i hi; rw [List.mem_singleton] at hi; subst hi; norm_num)]
    simp only [List.flatMap_cons, List.flatMap_nil, List.append_nil]
    rw [hfrag]

/-- Claim C4 witness: the amended theorem applied at `t = 253` and a
256-byte item. -/
theorem tlv8_c4_witness :
    (253 : Nat) ≤ 255 ∧ 255 < (List.replicate 256 (1 : Nat)).length
    ∧ ∀ r ∈ tlv8Fragments 253 (List.replicate 256 1), r.1 = 253 :=
  ⟨by omega, by rw [List.length_replicate]; omega,
    (tlv8_c4_fragmentation 253 (List.replicate 256 1) (by omega)
      (by rw [List.length_replicate]; omega)).2.1⟩

/-! ## OPACK2 encoder (`src/lib/remote-xpc/opack2/index.ts`, class `Opack2`) -/

/-- OPACK2 constants from constants.ts. -/
def OPACK2_NULL : Nat := 0x03

def OPACK2_TRUE : Nat := 0x01

def OPACK2_FALSE : Nat := 0x02

def OPACK2_SMALL_INT_OFFSET : Nat := 8

def OPACK2_SMALL_INT_MAX : Nat := 0x27

def OPACK2_SMALL_STRING_MAX : Nat := 0x20

def OPACK2_SMALL_BYTES_MAX : Nat := 0x20

def OPACK2_SMALL_ARRAY_MAX : Nat := 15

def OPACK2_SMALL_DICT_MAX : Nat := 15

def OPACK2_INT8_MARKER : Nat := 0x30

def OPACK2_INT32_MARKER : Nat := 0x32

def OPACK2_INT64_MARKER : Nat := 0x33

def OPACK2_FLOAT_MARKER : Nat := 0x35

def OPACK2_SMALL_STRING_BASE : Nat := 0x40

def OPACK2_STRING_8BIT_LEN_MARKER : Nat := 0x61

def OPACK2_STRING_16BIT_LEN_MARKER : Nat := 0x62

def OPACK2_STRING_32BIT_LEN_MARKER : Nat := 0x63

def OPACK2_SMALL_BYTES_BASE : Nat := 0x70

def OPACK2_BYTES_8BIT_LEN_MARKER : Nat := 0x91

def OPACK2_BYTES_16BIT_LEN_MARKER : Nat := 0x92

def OPACK2_BYTES_32BIT_LEN_MARKER : Nat := 0x93

def OPACK2_SMALL_ARRAY_BASE : Nat := 0xd0

def OPACK2_VARIABLE_ARRAY_MARKER : Nat := 0xdf

def OPACK2_SMALL_DICT_BASE : Nat := 0xe0

def OPACK2_VARIABLE_DICT_MARKER : Nat := 0xef

def OPACK2_UINT8_MAX : Nat := 0xff

def OPACK2_UINT16_MAX : Nat := 0xffff

def OPACK2_UINT32_MAX : Nat := 0xffffffff

/-- `Number.MAX_SAFE_INTEGER`. -/
def MAX_SAFE_INTEGER : Nat := 2 ^ 53 - 1

/-- A JavaScript number as `Opack2.encodeNumber` distinguishes them:
`int n` is a value with `Number.isInteger(num)` true (any sign); `nonInt i`
stands for a non-integer finite number (only its identity matters — its
IEEE-754 single-precision bytes come from the abstract `writeFloatLE`
parameter below). -/
inductive JSNum where
  | int : Int → JSNum
  | nonInt : Nat → JSNum
deriving DecidableEq

/-- OPACK2-serializable values (the `SerializableValue` recursive sum type):
strings and `Buffer`s are modelled as their UTF-8 / raw byte lists, `null`
and `undefined` collapse to `null`, and a dictionary is its ordered
`Object.entries` list of string-key / value pairs. -/
inductive OValue where
  | null : OValue
  | bool : Bool → OValue
  | num : JSNum → OValue
  | str : List Nat → OValue
  | bytes : List Nat → OValue
  | arr : List OValue → OValue
  | dict : List (List Nat × OValue) → OValue

/-- Little-endian `w`-byte encoding (`writeUInt32LE` / `writeBigUInt64LE`). -/
def uintLE (n w : Nat) : List Nat :=
  (List.range w).map (fun i => n / 256 ^ i % 256)

theorem uintLE_length (n w : Nat) : (uintLE n w).length = w := by
  simp [uintLE]

section Opack2

variable (writeFloatLE : JSNum → List Nat)

/-- `Opack2.encodeNumber` — branch for branch.  The first branch fires when
`!Number.isInteger(num) || num < 0` and emits the float marker followed by
`buffer.writeFloatLE(num, 1)`'s four bytes. -/
def encodeNumber (n : JSNum) : Option (List Nat) :=
  match n with
  | .nonInt _ => some (OPACK2_FLOAT_MARKER :: writeFloatLE n)
  | .int i =>
    if i < 0 then some (OPACK2_FLOAT_MARKER :: writeFloatLE n)
    else
      let v := i.toNat
      if v ≤ OPACK2_SMALL_INT_MAX then some [v + OPACK2_SMALL_INT_OFFSET]
      else if v ≤ OPACK2_UINT8_MAX then some [OPACK2_INT8_MARKER, v]
      else if v ≤ OPACK2_UINT32_MAX then some (OPACK2_INT32_MARKER :: uintLE v 4)
      else if v ≤ MAX_SAFE_INTEGER then some (OPACK2_INT64_MARKER :: uintLE v 8)
      else none

/-- `Opack2.encodeString` on the UTF-8 bytes of the string; length headers
are big-endian (`writeUInt16BE` / `writeUInt32BE`). -/
def encodeString (s : List Nat) : Option (List Nat) :=
  let length := s.length
  if length ≤ OPACK2_SMALL_STRING_MAX then
    some ((OPACK2_SMALL_STRING_BASE + length) :: s)
  else if length ≤ OPACK2_UINT8_MAX then
    some (OPACK2_STRING_8BIT_LEN_MARKER :: length :: s)
  else if length ≤ OPACK2_UINT16_MAX then
    some (OPACK2_STRING_16BIT_LEN_MARKER :: bigIntToBuffer length 2 ++ s)
  else if length ≤ OPACK2_UINT32_MAX then
    some (OPACK2_STRING_32BIT_LEN_MARKER :: bigIntToBuffer length 4 ++ s)
  else none

/-- `Opack2.encodeBytes` — same shape as strings with the bytes markers. -/
def encodeBytes (b : List Nat) : Option (List Nat) :=
  let length := b.length
  if length ≤ OPACK2_SMALL_BYTES_MAX then
    some ((OPACK2_SMALL_BYTES_BASE + length) :: b)
  else if length ≤ OPACK2_UINT8_MAX then
    some (OPACK2_BYTES_8BIT_LEN_MARKER :: length :: b)
  else if length ≤ OPACK2_UINT16_MAX then
    some (OPACK2_BYTES_16BIT_LEN_MARKER :: bigIntToBuffer length 2 ++ b)
  else if length ≤ OPACK2_UINT32_MAX then
    some (OPACK2_BYTES_32BIT_LEN_MARKER :: bigIntToBuffer length 4 ++ b)
  else none

mutual

/-- `Opack2.encode` — the type-dispatching encoder.  Dictionary keys go
through `this.encode(key)`, which for the string keys of `Object.entries`
is exactly `encodeString`. -/
def encode : OValue → Option (List Nat)
  | .null => some [OPACK2_NULL]
  | .bool b => some [if b then OPACK2_TRUE else OPACK2_FALSE]
  | .num n => encodeNumber writeFloatLE n
  | .str s => encodeString s
  | .bytes b => encodeBytes b
  | .arr elems =>
    if elems.length ≤ OPACK2_SMALL_ARRAY_MAX then
      (encodeElems elems).map
        (fun body => (OPACK2_SMALL_ARRAY_BASE + elems.length) :: body)
    else
      (encodeElems elems).map
        (fun body => OPACK2_VARIABLE_ARRAY_MARKER :: body ++ [OPACK2_NULL])
  | .dict entries =>
    if entries.length < OPACK2_SMALL_DICT_MAX then
      (encodeEntries entries).map
        (fun body => (OPACK2_SMALL_DICT_BASE + entries.length) :: body)
    else
      (encodeEntries entries).map
        (fun body =>
          OPACK2_VARIABLE_DICT_MARKER :: body ++ [OPACK2_NULL, OPACK2_NULL])

/-- The concatenated encodings of an array's elements, in order. -/
def encodeElems : List OValue → Option (List Nat)
  | [] => some []
  | x :: xs => do
    let hd ← encode x
    let tl ← encodeElems xs
    pure (hd ++ tl)

/-- The concatenated alternating key/value encodings of a dict's entries. -/
def encodeEntries : List (List Nat × OValue) → Option (List Nat)
  | [] => some []
  | (k, v) :: es => do
    let hk ← encodeString k
    let hv ← encode v
    let tl ← encodeEntries es
    pure (hk ++ hv ++ tl)

end

end Opack2

/-- Claim C5: `Opack2.encodeNumber` maps 0..39 to one byte `n + 0x08`,
40..0xFF to `0x30` plus one byte, 0x100..0xFFFFFFFF to `0x32` plus four
little-endian bytes, 0x100000000..2^53−1 to `0x33` plus eight little-endian
bytes, every negative or non-integer number to marker `0x35` plus the four
`writeFloatLE` bytes, and rejects integers above 2^53−1; in particular
`0 ↦ 0x08`, `39 ↦ 0x2F`, `40 ↦ 0x30 0x28`. -/
theorem opack2_c5_number_encoding (writeFloatLE : JSNum → List Nat)
    (hwf : ∀ j, (writeFloatLE j).length = 4) :
    (∀ n : Nat, n ≤ 39 →
        encodeNumber writeFloatLE (.int n) = some [n + 8])
    ∧ (∀ n : Nat, 40 ≤ n → n ≤ 0xff →
        encodeNumber writeFloatLE (.int n) = some [0x30, n])
    ∧ (∀ n : Nat, 0x100 ≤ n → n ≤ 0xffffffff →
        encodeNumber writeFloatLE (.int n) = some (0x32 :: uintLE n 4)
          ∧ (uintLE n 4).length = 4)
    ∧ (∀ n : Nat, 0xffffffff < n → n ≤ 2 ^ 53 - 1 →
        encodeNumber writeFloatLE (.int n) = some (0x33 :: uintLE n 8)
          ∧ (uintLE n 8).length = 8)
    ∧ (∀ i : Int, i < 0 →
        encodeNumber writeFloatLE (.int i)
            = some (0x35 :: writeFloatLE (.int i))
          ∧ (0x35 :: writeFloatLE (.int i)).length = 5)
    ∧ (∀ j : Nat,
        encodeNumber writeFloatLE (.nonInt j)
            = some (0x35 :: writeFloatLE (.nonInt j))
          ∧ (0x35 :: writeFloatLE (.nonInt j)).length = 5)
    ∧ (∀ n : Nat, 2 ^ 53 - 1 < n →
        encodeNumber writeFloatLE (.int n) = none)
    ∧ encodeNumber writeFloatLE (.int 0) = some [0x08]
    ∧ encodeNumber writeFloatLE (.int 39) = some [0x2F]
    ∧ encodeNumber writeFloatLE (.int 40) = some [0x30, 0x28] := by
  have hunfold : ∀ n : Nat, encodeNumber writeFloatLE (.int n)
      = (if n ≤ 0x27 then some [n + 8]
         else if n ≤ 0xff then some [0x30, n]
         else if n ≤ 0xffffffff then some (0x32 :: uintLE n 4)
         else if n ≤ 2 ^ 53 - 1 then some (0x33 :: uintLE n 8)
         else none) := by
    intro n
    have h0 : ¬((n : Int) < 0) := by omega
    simp only [encodeNumber, h0, if_false, Int.toNat_natCast,
      OPACK2_SMALL_INT_MAX, OPACK2_SMALL_INT_OFFSET, OPACK2_UINT8_MAX,
      OPACK2_UINT32_MAX, MAX_SAFE_INTEGER, OPACK2_INT8_MARKER,
      OPACK2_INT32_MARKER, OPACK2_INT64_MARKER]
  refine ⟨?_, ?_, ?_, ?_, ?_, ?_, ?_, ?_, ?_, ?_⟩
  · intro n hn
    rw [hunfold, if_pos (by omega)]
  · intro n h1 h2
    rw [hunfold, if_neg (by omega), if_pos (by omega)]
  · intro n h1 h2
    rw [hunfold, if_neg (by omega), if_neg (by omega), if_pos (by omega)]
    exact ⟨rfl, uintLE_length n 4⟩
  · intro n h1 h2
    rw [hunfold, if_neg (by omega), if_neg (by omega), if_neg (by omega),
      if_pos (by omega)]
    exact ⟨rfl, uintLE_length n 8⟩
  · intro i hi
    refine ⟨?_, by simp [hwf]⟩
    simp only [encodeNumber, hi, if_true, OPACK2_FLOAT_MARKER]
  · intro j
    exact ⟨rfl, by simp [hwf]⟩
  · intro n hn
    rw [hunfold, if_neg (by omega), if_neg (by omega), if_neg (by omega),
      if_neg (by omega)]
  · simpa using hunfold 0
  · simpa using hunfold 39
  · simpa using hunfold 40

/-- Claim C5 witness: the three known-answer values with a concrete four-byte
`writeFloatLE`, plus a negative number hitting the float marker. -/
theorem opack2_c5_witness :
    encodeNumber (fun _ => [0, 0, 0, 0]) (.int 40) = some [0x30, 0x28]
    ∧ encodeNumber (fun _ => [0, 0, 0, 0]) (.int (-1))
        = some [0x35, 0, 0, 0, 0] :=
  ⟨(opack2_c5_number_encoding (fun _ => [0, 0, 0, 0]) (fun _ => rfl)).2.2.2.2.2.2.2.2.2,
   ((opack2_c5_number_encoding (fun _ => [0, 0, 0, 0]) (fun _ => rfl)).2.2.2.2.1
      (-1) (by omega)).1⟩

/-- Claim C6: an array of `L ≤ 15` elements gets the small form
`0xD0 + L` with no terminator; `L > 15` gets `0xDF`, the element encodings,
and a single `0x03` terminator; a dict of `L` entries gets the small form
`0xE0 + L` only when `L < 15`, and for `L ≥ 15` the variable form `0xEF`
terminated by `0x03 0x03`. -/
theorem opack2_c6_container_thresholds (writeFloatLE : JSNum → List Nat) :
    (∀ (xs : List OValue) (body : List Nat),
        encodeElems writeFloatLE xs = some body → xs.length ≤ 15 →
        encode writeFloatLE (.arr xs)
          = some ((0xd0 + xs.length) :: body))
    ∧ (∀ (xs : List OValue) (body : List Nat),
        encodeElems writeFloatLE xs = some body → 15 < xs.length →
        encode writeFloatLE (.arr xs) = some (0xdf :: body ++ [0x03]))
    ∧ (∀ (es : List (List Nat × OValue)) (body : List Nat),
        encodeEntries writeFloatLE es = some body → es.length < 15 →
        encode writeFloatLE (.dict es)
          = some ((0xe0 + es.length) :: body))
    ∧ (∀ (es : List (List Nat × OValue)) (body : List Nat),
        encodeEntries writeFloatLE es = some body → 15 ≤ es.length →
        encode writeFloatLE (.dict es)
          = some (0xef :: body ++ [0x03, 0x03])) := by
  refine ⟨?_, ?_, ?_, ?_⟩
  · intro xs body hb hl
    simp only [encode, OPACK2_SMALL_ARRAY_MAX, OPACK2_SMALL_ARRAY_BASE]
    rw [if_pos hl, hb]
    rfl
  · intro xs body hb hl
    simp only [encode, OPACK2_SMALL_ARRAY_MAX, OPACK2_VARIABLE_ARRAY_MARKER,
      OPACK2_NULL]
    rw [if_neg (by omega), hb]
    rfl
  · intro es body hb hl
    simp only [encode, OPACK2_SMALL_DICT_MAX, OPACK2_SMALL_DICT_BASE]
    rw [if_pos hl, hb]
    rfl
  · intro es body hb hl
    simp only [encode, OPACK2_SMALL_DICT_MAX, OPACK2_VARIABLE_DICT_MARKER,
      OPACK2_NULL]
    rw [if_neg (by omega), hb]
    rfl

/-- Claim C6 witness: a 16-element array of nulls takes the variable form
with one `0x03` terminator, and a 15-entry dict takes the variable form with
the `0x03 0x03` terminator. -/
theorem opack2_c6_witness :
    encode (fun _ => []) (OValue.arr (List.replicate 16 OValue.null))
        = some (0xdf :: List.replicate 16 3 ++ [0x03])
    ∧ encode (fun _ => [])
        (OValue.dict (List.replicate 15 ([], OValue.null)))
        = some (0xef :: (List.replicate 15 0x40).flatMap (fun b => [b, 3])
            ++ [0x03, 0x03]) :=
  ⟨(opack2_c6_container_thresholds (fun _ => [])).2.1
      (List.replicate 16 OValue.null) (List.replicate 16 3)
      (by decide) (by decide),
   (opack2_c6_container_thresholds (fun _ => [])).2.2.2
      (List.replicate 15 ([], OValue.null))
      ((List.replicate 15 0x40).flatMap (fun b => [b, 3]))
      (by decide) (by decide)⟩

/-- Claim C10: a 15-element array uses the small-form header
`0xD0 + 15 = 0xDF`, the same byte as the variable-form array marker used for
arrays of more than 15 elements, so the first output byte alone cannot
distinguish the two cases. -/
theorem opack2_c10_header_collision (writeFloatLE : JSNum → List Nat) :
    (∀ (xs : List OValue) (out : List Nat), xs.length = 15 →
        encode writeFloatLE (.arr xs) = some out → out.head? = some 0xdf)
    ∧ (∀ (ys : List OValue) (out : List Nat), 15 < ys.length →
        encode writeFloatLE (.arr ys) = some out → out.head? = some 0xdf)
    ∧ OPACK2_SMALL_ARRAY_BASE + 15 = OPACK2_VARIABLE_ARRAY_MARKER := by
  refine ⟨?_, ?_, by norm_num [OPACK2_SMALL_ARRAY_BASE, OPACK2_VARIABLE_ARRAY_MARKER]⟩
  · intro xs out hl he
    simp only [encode, OPACK2_SMALL_ARRAY_MAX, OPACK2_SMALL_ARRAY_BASE, hl,
      if_pos] at he
    rcases Option.map_eq_some'.mp he with ⟨body, _, hout⟩
    rw [← hout]
    rfl
  · intro ys out hl he
    simp only [encode, OPACK2_SMALL_ARRAY_MAX, OPACK2_VARIABLE_ARRAY_MARKER,
      OPACK2_NULL] at he
    rw [if_neg (by omega)] at he
    rcases Option.map_eq_some'.mp he with ⟨body, _, hout⟩
    rw [← hout]
    rfl

/-- Claim C10 witness: concrete 15-element and 16-element arrays of nulls
both produce output starting with `0xDF`. -/
theorem opack2_c10_witness :
    (0xdf :: List.replicate 15 3).head? = some 0xdf
    ∧ ((0xdf :: List.replicate 16 3 ++ [3]).head? = some 0xdf) :=
  ⟨(opack2_c10_header_collision (fun _ => [])).1
      (List.replicate 15 OValue.null) (0xdf :: List.replicate 15 3)
      (by decide) (by decide),
   (opack2_c10_header_collision (fun _ => [])).2.1
      (List.replicate 16 OValue.null) (0xdf :: List.replicate 16 3 ++ [3])
      (by decide) (by decide)⟩

/-! ## SRP client (`src/lib/remote-xpc/srp/srp-client.ts`, class `SRPClient`)

The hash (node SHA-512) is abstracted as a parameter `sha512`; the
cryptographically random stream feeding `randomBytes(32)` is abstracted as
`rnd : Nat → Nat`, giving the `bufferToBigInt` value of the i-th draw.
JavaScript exceptions are modelled with `Except`; since a throwing method
leaves earlier field assignments in place, mutating operations return the
final state next to the result. -/

/-- The kinds of `SRPError` the client throws: parameter validation (with the
message), use after dispose, and key-generation exhaustion. -/
inductive SRPErr where
  | validation : String → SRPErr
  | disposedUse : SRPErr
  | exhaustion : SRPErr
deriving DecidableEq

/-- The mutable fields of an `SRPClient` instance.  `Buffer`s are byte lists;
`bigint`s are `Nat`; nullable fields are `Option`. -/
structure SRPState where
  username : String
  password : String
  _salt : Option (List Nat)
  _a : Nat
  _A : Nat
  _B : Option Nat
  _S : Option Nat
  _K : Option (List Nat)
  keysGenerated : Bool
  disposed : Bool

/-- The state after `new SRPClient()` (the derived constant `k` is the pure
function `calculateK` below). -/
def SRPClient_init : SRPState :=
  { username := "Pair-Setup", password := "", _salt := none, _a := 0, _A := 0,
    _B := none, _S := none, _K := none, keysGenerated := false,
    disposed := false }

/-- JS truthiness of a nullable `Buffer`: `null` is falsy, any `Buffer`
object (even empty) is truthy. -/
def bufTruthy (b : Option (List Nat)) : Bool := b.isSome

/-- JS truthiness of a nullable `bigint`: `null` and `0n` are falsy. -/
def bigTruthy : Option Nat → Bool
  | none => false
  | some b => b != 0

/-- The remainder operator `%` of JavaScript `bigint`s: truncated division,
the result takes the dividend's sign (unlike Lean's `Int.emod`, which is
non-negative for a positive modulus). -/
def jsMod (a n : Int) : Int :=
  if a < 0 then -((-a) % n) else a % n

/-- UTF-8 bytes of a string. -/
def utf8 (s : String) : List Nat := s.toUTF8.toList.map (fun b => b.toNat)

section SRP

variable (sha512 : List Nat → List Nat)

/-- Modelled from the spec: `calculateK(N, g, 384)` from the missing
`crypto-utils.ts` — `k = H(PAD(N) || PAD(g))` as an integer. -/
def calculateK : Nat :=
  bufferToBigInt (sha512 (bigIntToBuffer N SRP_KEY_LENGTH_BYTES
    ++ bigIntToBuffer g SRP_KEY_LENGTH_BYTES))

/-- Modelled from the spec: `calculateU(A, B, 384)` from the missing
`crypto-utils.ts` — `u = H(PAD(A) || PAD(B))` as an integer. -/
def calculateU (A B : Nat) : Nat :=
  bufferToBigInt (sha512 (bigIntToBuffer A SRP_KEY_LENGTH_BYTES
    ++ bigIntToBuffer B SRP_KEY_LENGTH_BYTES))

/-- Modelled from the spec: `calculateX(salt, username, password)` from the
missing `crypto-utils.ts` — `x = H(salt || H(username || ":" || password))`
as an integer. -/
def calculateX (salt : List Nat) (username password : String) : Nat :=
  bufferToBigInt (sha512 (salt ++ sha512 (utf8 (username ++ ":" ++ password))))

/-- Modelled from the spec: `calculateM1(N, g, username, salt, A, B, K)` from
the missing `crypto-utils.ts` —
`M1 = H((H(PAD N) xor H(PAD g)) || H(username) || salt || PAD A || PAD B || K)`. -/
def calculateM1 (username : String) (salt : List Nat) (A B : Nat)
    (K : List Nat) : List Nat :=
  sha512 ((List.zipWith (fun a b => a ^^^ b)
      (sha512 (bigIntToBuffer N SRP_KEY_LENGTH_BYTES))
      (sha512 (bigIntToBuffer g SRP_KEY_LENGTH_BYTES)))
    ++ sha512 (utf8 username) ++ salt
    ++ bigIntToBuffer A SRP_KEY_LENGTH_BYTES
    ++ bigIntToBuffer B SRP_KEY_LENGTH_BYTES ++ K)

/-- `setIdentity(username, password)`: `throwIfDisposed()`, then the
emptiness checks (`!username?.trim()`, `!password`), then the stores. -/
def setIdentity (st : SRPState) (username password : String) :
    Except SRPErr Unit × SRPState :=
  if st.disposed then (.error .disposedUse, st)
  else if username.trim = "" then
    (.error (.validation "Username cannot be empty"), st)
  else if password = "" then
    (.error (.validation "Password cannot be empty"), st)
  else (.ok (), { st with username := username.trim, password := password })

/-- The `while (attempts < MAX_KEY_GENERATION_ATTEMPTS)` loop of
`generateClientKeys`, threading the assignments to `this._a` and `this._A`;
`fuel` is the number of attempts left (100 at entry), `i` indexes the random
stream. -/
def generateClientKeysLoop (rnd : Nat → Nat) :
    Nat → Nat → SRPState → Except SRPErr Unit × SRPState
  | 0, _, st => (.error .exhaustion, st)
  | fuel + 1, i, st =>
    let a := rnd i
    let st1 : SRPState := { st with _a := a }
    if a ≥ N then generateClientKeysLoop rnd fuel (i + 1) st1
    else if a = 0 then generateClientKeysLoop rnd fuel (i + 1) st1
    else
      let A := modPow g a N
      let st2 : SRPState := { st1 with _A := A }
      if A ≤ 1 ∨ A ≥ N - 1 then generateClientKeysLoop rnd fuel (i + 1) st2
      else (.ok (), st2)

/-- `generateClientKeys()`: `validateIdentitySet()` (password non-empty),
then the rejection-sampling loop with 100 attempts. -/
def generateClientKeys (rnd : Nat → Nat) (st : SRPState) :
    Except SRPErr Unit × SRPState :=
  if st.password = "" then
    (.error (.validation
      "Password must be set before performing operations. Call setIdentity() first."),
     st)
  else generateClientKeysLoop rnd 100 0 st

/-- `generateClientKeysIfReady()`: the truthiness guard
`this._salt && this._B && !this.keysGenerated`. -/
def generateClientKeysIfReady (rnd : Nat → Nat) (st : SRPState) :
    Except SRPErr Unit × SRPState :=
  if bufTruthy st._salt && bigTruthy st._B && !st.keysGenerated then
    match generateClientKeys rnd st with
    | (.error e, st1) => (.error e, st1)
    | (.ok _, st1) => (.ok (), { st1 with keysGenerated := true })
  else (.ok (), st)

/-- The `salt` setter: `throwIfDisposed()`, the emptiness check, the store,
then `generateClientKeysIfReady()`. -/
def saltSet (rnd : Nat → Nat) (st : SRPState) (value : List Nat) :
    Except SRPErr Unit × SRPState :=
  if st.disposed then (.error .disposedUse, st)
  else if value.length = 0 then
    (.error (.validation "Salt cannot be empty"), st)
  else generateClientKeysIfReady rnd { st with _salt := some value }

/-- The `salt` getter: returns `this._salt`, with no disposal check. -/
def saltGet (st : SRPState) : Except SRPErr (Option (List Nat)) :=
  .ok st._salt

/-- The `serverPublicKey` setter: `throwIfDisposed()`, the size check, the
store `this._B = bufferToBigInt(value)`, then the range and divisibility
checks (which throw after the store), then `generateClientKeysIfReady()`.
(The source interpolates the byte counts into the size message; the model
uses the fixed prefix.) -/
def serverPublicKeySet (rnd : Nat → Nat) (st : SRPState) (value : List Nat) :
    Except SRPErr Unit × SRPState :=
  if st.disposed then (.error .disposedUse, st)
  else if value.length ≠ SRP_KEY_LENGTH_BYTES then
    (.error (.validation "Server public key must be 384 bytes"), st)
  else
    let B := bufferToBigInt value
    let st1 : SRPState := { st with _B := some B }
    if B ≤ 1 ∨ B ≥ N - 1 then
      (.error (.validation "Invalid server public key B: must be in range (1, N-1)"),
       st1)
    else if B % N = 0 then
      (.error (.validation "Invalid server public key B: divisible by N"), st1)
    else generateClientKeysIfReady rnd st1

/-- The `serverPublicKey` getter:
`this._B ? bigIntToBuffer(this._B, 384) : null`, with no disposal check. -/
def serverPublicKeyGet (st : SRPState) : Except SRPErr (Option (List Nat)) :=
  .ok (if bigTruthy st._B then
    some (bigIntToBuffer (st._B.getD 0) SRP_KEY_LENGTH_BYTES) else none)

/-- The `publicKey` getter: `throwIfDisposed()`, then the
`this._A === ZERO` check, then `bigIntToBuffer(this._A, 384)`. -/
def publicKeyGet (st : SRPState) : Except SRPErr (List Nat) :=
  if st.disposed then .error .disposedUse
  else if st._A = 0 then
    .error (.validation
      "Client keys not generated yet. Set salt and serverPublicKey properties first.")
  else .ok (bigIntToBuffer st._A SRP_KEY_LENGTH_BYTES)

/-- `computeSharedSecret()`: `validateIdentitySet()`, the prerequisite
checks, then `u`, `x`, `gx`, `kgx`, the negative-modulo-corrected `base`,
the unreduced exponent `a + u*x`, `S = modPow(base, exponent, N)` and
`K = hash(bigIntToBuffer(S, 384))`. -/
def computeSharedSecret (st : SRPState) : Except SRPErr Unit × SRPState :=
  if st.password = "" then
    (.error (.validation
      "Password must be set before performing operations. Call setIdentity() first."),
     st)
  else if !(bufTruthy st._salt) || !(bigTruthy st._B) then
    (.error (.validation "Salt and server public key must be set first"), st)
  else if st._A = 0 then
    (.error (.validation "Client keys not generated"), st)
  else
    let B := st._B.getD 0
    let salt := st._salt.getD []
    let u := calculateU sha512 st._A B
    let x := calculateX sha512 salt st.username st.password
    let gx := modPow g x N
    let kgx := (calculateK sha512 * gx) % N
    let base : Int := jsMod (jsMod ((B : Int) - (kgx : Int)) (N : Int)
      + (N : Int)) (N : Int)
    let exponent := st._a + u * x
    let S := modPow base.toNat exponent N
    let K := sha512 (bigIntToBuffer S SRP_KEY_LENGTH_BYTES)
    (.ok (), { st with _S := some S, _K := some K })

/-- `computeProof()`: `throwIfDisposed()`, `validateIdentitySet()`, the lazy
`if (!this._K) this.computeSharedSecret()`, the prerequisite re-check, then
`calculateM1(...)`. -/
def computeProof (st : SRPState) : Except SRPErr (List Nat) × SRPState :=
  if st.disposed then (.error .disposedUse, st)
  else if st.password = "" then
    (.error (.validation
      "Password must be set before performing operations. Call setIdentity() first."),
     st)
  else
    match (if !(bufTruthy st._K) then computeSharedSecret sha512 st
           else (.ok (), st)) with
    | (.error e, st1) => (.error e, st1)
    | (.ok _, st1) =>
      if !(bufTruthy st1._salt) || !(bufTruthy st1._K) || !(bigTruthy st1._B) then
        (.error (.validation
          "Cannot compute proof: salt, session key, and server public key must be set"),
         st1)
      else
        (.ok (calculateM1 sha512 st1.username (st1._salt.getD []) st1._A
          (st1._B.getD 0) (st1._K.getD [])), st1)

/-- The `sessionKey` getter: `throwIfDisposed()`, `validateIdentitySet()`,
the lazy `if (!this._K) this.computeSharedSecret()`, the `!this._K`
re-check, then `this._K`. -/
def sessionKeyGet (st : SRPState) : Except SRPErr (List Nat) × SRPState :=
  if st.disposed then (.error .disposedUse, st)
  else if st.password = "" then
    (.error (.validation
      "Password must be set before performing operations. Call setIdentity() first."),
     st)
  else
    match (if !(bufTruthy st._K) then computeSharedSecret sha512 st
           else (.ok (), st)) with
    | (.error e, st1) => (.error e, st1)
    | (.ok _, st1) =>
      match st1._K with
      | none => (.error (.validation "Session key not computed"), st1)
      | some K => (.ok K, st1)

/-- `isReady()`:
`!this.disposed && !!(this._salt && this._B && this.keysGenerated)`. -/
def isReady (st : SRPState) : Bool :=
  !st.disposed && (bufTruthy st._salt && (bigTruthy st._B && st.keysGenerated))

/-- `hasSessionKey()`: `!this.disposed && !!this._K`. -/
def hasSessionKey (st : SRPState) : Bool :=
  !st.disposed && bufTruthy st._K

/-- `dispose()`: a no-op when already disposed; otherwise clears `password`
and `_a`, zero-fills the session key buffer in place (`this._K.fill(0)` —
`_K` stays non-null), nulls `_salt`, `_S`, `_B`, and marks the client
disposed.  Note `_A` and `username` survive. -/
def dispose (st : SRPState) : SRPState :=
  if st.disposed then st
  else
    { st with
      password := "", _a := 0,
      _K := st._K.map (fun K => K.map (fun _ => 0)),
      _salt := none, _S := none, _B := none,
      disposed := true }

end SRP

theorem N_lt_pow : N < 256 ^ 384 := by decide

theorem five_lt_N : 5 < N := by decide

/-- Claim C7 counterexample: on a disposed client the `salt` and
`serverPublicKey` property reads do not raise use-after-dispose — they
return `null` (the getters have no disposal check). -/
theorem srp_c7_counterexample :
    saltGet (dispose SRPClient_init) = .ok none
    ∧ serverPublicKeyGet (dispose SRPClient_init) = .ok none
    ∧ (dispose SRPClient_init).disposed = true :=
  ⟨rfl, rfl, rfl⟩

/-- Claim C7 (amended): after `dispose()`, `setIdentity`, the `salt` and
`serverPublicKey` setters, the `publicKey` getter, `computeProof` and the
`sessionKey` getter all raise use-after-dispose; the `salt` and
`serverPublicKey` getters return `null` without raising; and a second
`dispose` is a no-op. -/
theorem srp_c7_dispose (sha512 : List Nat → List Nat) (rnd : Nat → Nat)
    (st : SRPState) (hnd : st.disposed = false) (u p : String) (v : List Nat) :
    (dispose st).disposed = true
    ∧ (setIdentity (dispose st) u p).1 = .error .disposedUse
    ∧ (saltSet rnd (dispose st) v).1 = .error .disposedUse
    ∧ (serverPublicKeySet rnd (dispose st) v).1 = .error .disposedUse
    ∧ publicKeyGet (dispose st) = .error .disposedUse
    ∧ (computeProof sha512 (dispose st)).1 = .error .disposedUse
    ∧ (sessionKeyGet sha512 (dispose st)).1 = .error .disposedUse
    ∧ saltGet (dispose st) = .ok none
    ∧ serverPublicKeyGet (dispose st) = .ok none
    ∧ dispose (dispose st) = dispose st := by
  have hd : dispose st
      = { st with
          password := "", _a := 0,
          _K := st._K.map (fun K => K.map (fun _ => 0)),
          _salt := none, _S := none, _B := none, disposed := true } := by
    simp [dispose, hnd]
  rw [hd]
  exact ⟨rfl, rfl, rfl, rfl, rfl, rfl, rfl, rfl, rfl, rfl⟩

/-- Claim C7 witness: the amended theorem at a freshly constructed client. -/
theorem srp_c7_witness :
    SRPClient_init.disposed = false
    ∧ (computeProof (fun _ => []) (dispose SRPClient_init)).1
        = .error .disposedUse
    ∧ dispose (dispose SRPClient_init) = dispose SRPClient_init :=
  ⟨rfl,
   (srp_c7_dispose (fun _ => []) (fun _ => 0) SRPClient_init rfl "" "" []).2.2.2.2.2.1,
   (srp_c7_dispose (fun _ => []) (fun _ => 0) SRPClient_init rfl "" "" []).2.2.2.2.2.2.2.2.2⟩

/-- Claim C2: with the client not disposed, assigning `serverPublicKey`
raises a validation error whenever the buffer length is not 384; for a
384-byte buffer it raises whenever the encoded `B` satisfies `B ≤ 1` or
`B ≥ N − 1`; in particular each of `0`, `1`, `N−1`, `N` encoded on 384 bytes
is rejected with the range error. -/
theorem srp_c2_reject_bad_B (rnd : Nat → Nat) (st : SRPState) (v : List Nat)
    (hnd : st.disposed = false) :
    (v.length ≠ 384 →
      (serverPublicKeySet rnd st v).1
        = .error (.validation "Server public key must be 384 bytes"))
    ∧ (v.length = 384 →
      bufferToBigInt v ≤ 1 ∨ N - 1 ≤ bufferToBigInt v →
      (serverPublicKeySet rnd st v).1
        = .error
          (.validation "Invalid server public key B: must be in range (1, N-1)"))
    ∧ ∀ B0 ∈ [0, 1, N - 1, N],
      (serverPublicKeySet rnd st (bigIntToBuffer B0 SRP_KEY_LENGTH_BYTES)).1
        = .error
          (.validation "Invalid server public key B: must be in range (1, N-1)") := by
  have hbad : ∀ w : List Nat, w.length = 384 →
      bufferToBigInt w ≤ 1 ∨ N - 1 ≤ bufferToBigInt w →
      (serverPublicKeySet rnd st w).1
        = .error
          (.validation "Invalid server public key B: must be in range (1, N-1)") := by
    intro w hlen hb
    unfold serverPublicKeySet
    rw [if_neg (by simp [hnd]), if_neg (by simp [SRP_KEY_LENGTH_BYTES, hlen])]
    simp only []
    rw [if_pos hb]
  refine ⟨?_, hbad v, ?_⟩
  · intro h
    unfold serverPublicKeySet
    rw [if_neg (by simp [hnd]), if_pos (by simpa [SRP_KEY_LENGTH_BYTES] using h)]
  · intro B0 hB0
    have hN := N_lt_pow
    have h5 := five_lt_N
    simp only [List.mem_cons, List.not_mem_nil, or_false] at hB0
    have hlt : B0 < 256 ^ 384 := by
      rcases hB0 with rfl | rfl | rfl | rfl <;> omega
    refine hbad _ (bigIntToBuffer_length B0 SRP_KEY_LENGTH_BYTES) ?_
    rw [show SRP_KEY_LENGTH_BYTES = 384 from rfl,
      bufferToBigInt_bigIntToBuffer B0 384 hlt]
    rcases hB0 with rfl | rfl | rfl | rfl <;> omega

theorem N_pos : 0 < N := by
  have := five_lt_N
  omega

/-- Folding the JS truncated remainder back into `[0, n)`:
`((a % n) + n) % n` in JavaScript is the non-negative residue, i.e. Lean's
`Int.emod`. -/
theorem jsMod_fold (a n : Int) (hn : 0 < n) :
    jsMod (jsMod a n + n) n = a % n := by
  have hne : n ≠ 0 := ne_of_gt hn
  by_cases h : a < 0
  · have h1 : 0 ≤ (-a) % n := Int.emod_nonneg _ hne
    have h2 : (-a) % n < n := Int.emod_lt_of_pos _ hn
    have hin : jsMod a n = -((-a) % n) := by rw [jsMod, if_pos h]
    rw [hin, jsMod, if_neg (by omega)]
    have h3 : (-((-a) % n) + n) % n = (-((-a) % n)) % n := by simp
    rw [h3]
    have h4 : ((-a) % n) % n = (-a) % n := Int.emod_emod_of_dvd _ dvd_rfl
    calc (-((-a) % n)) % n = (-(-a)) % n := Int.ModEq.neg h4
      _ = a % n := by rw [neg_neg]
  · have h1 : 0 ≤ a % n := Int.emod_nonneg _ hne
    have hin : jsMod a n = a % n := by rw [jsMod, if_neg h]
    rw [hin, jsMod, if_neg (by omega)]
    have h3 : (a % n + n) % n = (a % n) % n := by simp
    rw [h3]
    exact Int.emod_emod_of_dvd _ dvd_rfl

/-- The `base` computed by `computeSharedSecret` — with `gx = g^x mod n` and
`kgx = (k·gx) mod n` and the truncated-remainder correction — equals the
non-negative residue of `B − k·g^x` modulo `n` (here `G` stands for the full
power `g^x`). -/
theorem base_congr (B k G n : Nat) (hn : 0 < n) :
    jsMod (jsMod ((B : Int) - (((k * (G % n)) % n : Nat) : Int)) (n : Int)
        + (n : Int)) (n : Int)
      = ((B : Int) - (k : Int) * (G : Int)) % (n : Int) := by
  rw [jsMod_fold _ _ (by exact_mod_cast hn)]
  have hcast : (((k * (G % n)) % n : Nat) : Int)
      = ((k : Int) * ((G : Int) % (n : Int))) % (n : Int) := by
    push_cast
    rfl
  rw [hcast]
  conv_lhs => rw [Int.sub_emod]
  conv_rhs => rw [Int.sub_emod]
  rw [Int.emod_emod_of_dvd _ dvd_rfl]
  have hmul : ((k : Int) * ((G : Int) % (n : Int))) % (n : Int)
      = ((k : Int) * (G : Int)) % (n : Int) := by
    conv_rhs => rw [Int.mul_emod]
    rw [Int.mul_emod, Int.emod_emod_of_dvd _ dvd_rfl]
  rw [hmul]

/-- The shared secret exactly as claim C1 states it: `u` and `x` from the
hash helpers, the base the non-negative residue of `B − k·g^x (mod N)`
(`Int.emod` of the full product, no pre-reduction of `g^x` needed), and the
exponent the plain unreduced integer `a + u·x`. -/
def specSharedSecret (sha512 : List Nat → List Nat)
    (username password : String) (s : List Nat) (B a A : Nat) : Nat :=
  let u := calculateU sha512 A B
  let x := calculateX sha512 s username password
  let base : Int :=
    ((B : Int) - (calculateK sha512 : Int) * ((g ^ x : Nat) : Int)) % (N : Int)
  base.toNat ^ (a + u * x) % N

/-- The session key claim C1 states: SHA-512 of the 384-byte big-endian
encoding of the shared secret. -/
def specSessionKey (sha512 : List Nat → List Nat)
    (username password : String) (s : List Nat) (B a A : Nat) : List Nat :=
  sha512 (bigIntToBuffer (specSharedSecret sha512 username password s B a A)
    SRP_KEY_LENGTH_BYTES)

/-- The state `computeSharedSecret` leaves behind, per claim C1. -/
def srpAfterSecret (sha512 : List Nat → List Nat) (st : SRPState)
    (s : List Nat) (B : Nat) : SRPState :=
  { st with
    _S := some (specSharedSecret sha512 st.username st.password s B st._a st._A),
    _K := some (specSessionKey sha512 st.username st.password s B st._a st._A) }

/-- Claim C1: with identity, salt, a valid `B` and client keys set and no
session key yet, `computeSharedSecret` succeeds and stores exactly
`S = base^(a+u·x) mod N` (base the non-negative residue of `B − k·g^x mod N`,
exponent unreduced) and `K = SHA-512(PAD(S))`; `computeProof()` and the
`sessionKey` getter trigger exactly this computation on first use, returning
`M1` respectively `K` next to that same state. -/
theorem srp_c1_shared_secret (sha512 : List Nat → List Nat) (st : SRPState)
    (s : List Nat) (B : Nat)
    (hnd : st.disposed = false) (hpw : st.password ≠ "")
    (hsalt : st._salt = some s) (hB : st._B = some B)
    (hBlo : 1 < B) (hBhi : B < N - 1) (hA : st._A ≠ 0) (hK : st._K = none) :
    computeSharedSecret sha512 st = (.ok (), srpAfterSecret sha512 st s B)
    ∧ computeProof sha512 st
      = (.ok (calculateM1 sha512 st.username s st._A B
          (specSessionKey sha512 st.username st.password s B st._a st._A)),
         srpAfterSecret sha512 st s B)
    ∧ sessionKeyGet sha512 st
      = (.ok (specSessionKey sha512 st.username st.password s B st._a st._A),
         srpAfterSecret sha512 st s B) := by
  have hbt : bigTruthy (some B) = true := by
    simp only [bigTruthy, bne_iff_ne, ne_eq, decide_eq_true_eq]
    omega
  have hcss : computeSharedSecret sha512 st
      = (.ok (), srpAfterSecret sha512 st s B) := by
    unfold computeSharedSecret
    rw [if_neg hpw,
      if_neg (by simp [bufTruthy, hsalt, hB, hbt]), if_neg hA]
    simp only [hsalt, hB, Option.getD_some]
    unfold srpAfterSecret specSessionKey specSharedSecret
    simp only [modPow]
    rw [base_congr B (calculateK sha512)
      (g ^ calculateX sha512 s st.username st.password) N N_pos]
    rw [hsalt, hB]
  refine ⟨hcss, ?_, ?_⟩
  · unfold computeProof
    rw [if_neg (by simp [hnd]), if_neg hpw]
    rw [show (!(bufTruthy st._K)) = true by simp [bufTruthy, hK]]
    rw [if_pos rfl, hcss]
    have hcheck : (!(bufTruthy (srpAfterSecret sha512 st s B)._salt)
        || !(bufTruthy (srpAfterSecret sha512 st s B)._K)
        || !(bigTruthy (srpAfterSecret sha512 st s B)._B)) = false := by
      simp [srpAfterSecret, bufTruthy, hsalt, hB, hbt]
    simp only [hcheck, Bool.false_eq_true, if_false]
    simp [srpAfterSecret, hsalt, hB]
  · unfold sessionKeyGet
    rw [if_neg (by simp [hnd]), if_neg hpw]
    rw [show (!(bufTruthy st._K)) = true by simp [bufTruthy, hK]]
    rw [if_pos rfl, hcss]
    simp [srpAfterSecret, specSessionKey]

/-- Claim C1 witness: the theorem applied at a concrete small client state
(identity set, salt `[1]`, `B = 2`, `a = 1`, `A = 5`) with a trivial hash. -/
theorem srp_c1_witness :
    (1 : Nat) < 2 ∧ (2 : Nat) < N - 1
    ∧ (computeSharedSecret (fun _ => [])
        ⟨"u", "p", some [1], 1, 5, some 2, none, none, true, false⟩).1
      = .ok () := by
  refine ⟨by omega, by decide, ?_⟩
  rw [(srp_c1_shared_secret (fun _ => [])
      ⟨"u", "p", some [1], 1, 5, some 2, none, none, true, false⟩ [1] 2
      rfl (by decide) rfl rfl (by omega) (by decide) (by decide) rfl).1]

/-- If the first random draw is already valid, the rejection-sampling loop
succeeds immediately, storing `a = rnd i` and `A = g^a mod N`. -/
theorem generateClientKeysLoop_first_success (rnd : Nat → Nat) (i : Nat)
    (st : SRPState) (fuel : Nat)
    (h1 : 0 < rnd i) (h2 : rnd i < N)
    (h3 : 1 < modPow g (rnd i) N) (h4 : modPow g (rnd i) N < N - 1) :
    generateClientKeysLoop rnd (fuel + 1) i st
      = (.ok (), { st with _a := rnd i, _A := modPow g (rnd i) N }) := by
  simp only [generateClientKeysLoop]
  rw [if_neg (by omega), if_neg (by omega), if_neg (by omega)]

set_option maxRecDepth 40000 in
/-- Claim C9 counterexample: for the 384-byte encoding of `B = 0` —
which is outside `(1, N−1)` — the setter raises and stores `0`, but the
subsequent valid salt assignment does *not* generate client keys (`0n` is
falsy in the `this._salt && this._B` guard) and `isReady()` stays false. -/
theorem srp_c9_counterexample :
    (serverPublicKeySet (fun _ => 1)
        { SRPClient_init with password := "pw" }
        (bigIntToBuffer 0 SRP_KEY_LENGTH_BYTES)).1
      = .error
        (.validation "Invalid server public key B: must be in range (1, N-1)")
    ∧ (serverPublicKeySet (fun _ => 1)
        { SRPClient_init with password := "pw" }
        (bigIntToBuffer 0 SRP_KEY_LENGTH_BYTES)).2._B = some 0
    ∧ (saltSet (fun _ => 1)
        ((serverPublicKeySet (fun _ => 1)
            { SRPClient_init with password := "pw" }
            (bigIntToBuffer 0 SRP_KEY_LENGTH_BYTES)).2) [1]).1 = .ok ()
    ∧ (saltSet (fun _ => 1)
        ((serverPublicKeySet (fun _ => 1)
            { SRPClient_init with password := "pw" }
            (bigIntToBuffer 0 SRP_KEY_LENGTH_BYTES)).2) [1]).2.keysGenerated
      = false
    ∧ isReady ((saltSet (fun _ => 1)
        ((serverPublicKeySet (fun _ => 1)
            { SRPClient_init with password := "pw" }
            (bigIntToBuffer 0 SRP_KEY_LENGTH_BYTES)).2) [1]).2) = false := by
  refine ⟨?_, ?_, ?_, ?_, ?_⟩ <;> rfl

/-- Claim C9 (amended): for every 384-byte buffer whose value `B` lies
outside `(1, N−1)` *and is non-zero* (`B = 1`, or `B ≥ N−1`), the assignment
raises the range error yet the rejected `B` stays stored; a subsequent valid
salt assignment (identity set, keys not yet generated, first random draw
valid) generates client keys with that `B` still stored, and `isReady()`
thereafter returns true.  (For `B = 0` the stored key is falsy, key
generation is skipped and `isReady()` stays false — see the
counterexample.) -/
theorem srp_c9_nonatomic_setter (rnd : Nat → Nat) (st : SRPState)
    (v s : List Nat)
    (hnd : st.disposed = false) (hpw : st.password ≠ "")
    (hkg : st.keysGenerated = false)
    (hlen : v.length = 384)
    (hbad : bufferToBigInt v ≤ 1 ∨ N - 1 ≤ bufferToBigInt v)
    (hB0 : bufferToBigInt v ≠ 0)
    (hs : s ≠ [])
    (h1 : 0 < rnd 0) (h2 : rnd 0 < N)
    (h3 : 1 < modPow g (rnd 0) N) (h4 : modPow g (rnd 0) N < N - 1) :
    (serverPublicKeySet rnd st v).1
      = .error
        (.validation "Invalid server public key B: must be in range (1, N-1)")
    ∧ (serverPublicKeySet rnd st v).2._B = some (bufferToBigInt v)
    ∧ (saltSet rnd (serverPublicKeySet rnd st v).2 s).1 = .ok ()
    ∧ (saltSet rnd (serverPublicKeySet rnd st v).2 s).2.keysGenerated = true
    ∧ (saltSet rnd (serverPublicKeySet rnd st v).2 s).2._B
        = some (bufferToBigInt v)
    ∧ isReady (saltSet rnd (serverPublicKeySet rnd st v).2 s).2 = true := by
  have hset : serverPublicKeySet rnd st v
      = (.error
          (.validation "Invalid server public key B: must be in range (1, N-1)"),
         { st with _B := some (bufferToBigInt v) }) := by
    unfold serverPublicKeySet
    rw [if_neg (by simp [hnd]), if_neg (by simp [SRP_KEY_LENGTH_BYTES, hlen])]
    simp only []
    rw [if_pos hbad]
  have hgen : generateClientKeys rnd
      { st with _B := some (bufferToBigInt v), _salt := some s }
      = (.ok (),
        { st with
          _B := some (bufferToBigInt v), _salt := some s,
          _a := rnd 0, _A := modPow g (rnd 0) N }) := by
    unfold generateClientKeys
    rw [if_neg hpw]
    rw [show (100 : Nat) = 99 + 1 from rfl,
      generateClientKeysLoop_first_success rnd 0 _ 99 h1 h2 h3 h4]
  have hsaltset : saltSet rnd { st with _B := some (bufferToBigInt v) } s
      = (.ok (),
        { st with
          _B := some (bufferToBigInt v), _salt := some s,
          _a := rnd 0, _A := modPow g (rnd 0) N, keysGenerated := true }) := by
    unfold saltSet
    rw [if_neg (by simp [hnd])]
    rw [if_neg (by simp [List.length_eq_zero]; exact hs)]
    unfold generateClientKeysIfReady
    rw [if_pos (show _ = true by simp [bufTruthy, bigTruthy, hkg, hB0])]
    rw [hgen]
  rw [hset, hsaltset]
  refine ⟨rfl, rfl, rfl, rfl, rfl, ?_⟩
  simp [isReady, bufTruthy, bigTruthy, hnd, hB0]

set_option maxRecDepth 40000 in
/-- Claim C9 witness: the amended theorem at `B = 1` on a fresh client with
identity set, salt `[2]`, and the constant random stream `1` (so `a = 1` and
`A = 5`). -/
theorem srp_c9_witness :
    (saltSet (fun _ => 1)
        ((serverPublicKeySet (fun _ => 1)
            { SRPClient_init with password := "pw" }
            (bigIntToBuffer 1 SRP_KEY_LENGTH_BYTES)).2) [2]).2.keysGenerated
      = true
    ∧ isReady ((saltSet (fun _ => 1)
        ((serverPublicKeySet (fun _ => 1)
            { SRPClient_init with password := "pw" }
            (bigIntToBuffer 1 SRP_KEY_LENGTH_BYTES)).2) [2]).2) = true :=
  ⟨(srp_c9_nonatomic_setter (fun _ => 1)
      { SRPClient_init with password := "pw" }
      (bigIntToBuffer 1 SRP_KEY_LENGTH_BYTES) [2]
      rfl (by decide) rfl (bigIntToBuffer_length 1 SRP_KEY_LENGTH_BYTES)
      (by decide) (by decide) (by decide)
      (by decide) (by decide) (by decide) (by decide)).2.2.2.1,
   (srp_c9_nonatomic_setter (fun _ => 1)
      { SRPClient_init with password := "pw" }
      (bigIntToBuffer 1 SRP_KEY_LENGTH_BYTES) [2]
      rfl (by decide) rfl (bigIntToBuffer_length 1 SRP_KEY_LENGTH_BYTES)
      (by decide) (by decide) (by decide)
      (by decide) (by decide) (by decide) (by decide)).2.2.2.2.2⟩

/-- Claim C2 witness: the rejection of the all-zero 384-byte buffer on a
fresh client, and of a 1-byte buffer by the size check. -/
theorem srp_c2_witness :
    (serverPublicKeySet (fun _ => 0) SRPClient_init
        (bigIntToBuffer 0 SRP_KEY_LENGTH_BYTES)).1
      = .error
        (.validation "Invalid server public key B: must be in range (1, N-1)")
    ∧ (serverPublicKeySet (fun _ => 0) SRPClient_init [7]).1
      = .error (.validation "Server public key must be 384 bytes") :=
  ⟨(srp_c2_reject_bad_B (fun _ => 0) SRPClient_init [] rfl).2.2 0 (by simp),
   (srp_c2_reject_bad_B (fun _ => 0) SRPClient_init [7] rfl).1 (by simp)⟩

end RemoteXpc
